/-
Verification of the resume rendering pipeline (resume_forge):
a shallow embedding of the schema (schema.py), the shared date helpers
(generators/base.py) and the two renderers (generators/pdf_generator.py,
generators/docx_generator.py), with theorems settling the specification
claims about section composition, date formatting, profile rendering,
escaping and determinism.
-/
import Mathlib

namespace ResumeForge

/-- Python truthiness of an optional string field (`if field:`):
`None` and the empty string are falsy, any non-empty string is truthy. -/
def pystr : Option String → Bool
  | none => false
  | some s => !s.isEmpty

/-- Whitespace as Python's `str.strip` removes it. -/
def isPySpace (c : Char) : Bool :=
  c == ' ' || c == '\t' || c == '\n' || c == '\r' || c == '\x0b' || c == '\x0c'

/-- Strip leading and trailing whitespace from a character list. -/
def trimChars (cs : List Char) : List Char :=
  ((cs.dropWhile isPySpace).reverse.dropWhile isPySpace).reverse

/-- Python `str.split(sep)` with a one-character separator, on character
lists: splitting the empty text yields one empty field, and every separator
occurrence opens a new field. -/
def splitOnChar (sep : Char) : List Char → List (List Char)
  | [] => [[]]
  | c :: cs =>
    match splitOnChar sep cs with
    | h :: t => if c == sep then [] :: h :: t else (c :: h) :: t
    | [] => if c == sep then [[], []] else [[c]]

/-- `date_str.split("-")` as used by `_format_date`. -/
def pySplitDash (s : String) : List String :=
  (splitOnChar '-' s.data).map String.mk

/-- Value of a non-empty all-digit character list, `none` otherwise. -/
def digitsVal (cs : List Char) : Option Nat :=
  if cs ≠ [] ∧ cs.all Char.isDigit then
    some (cs.foldl (fun a c => 10 * a + (c.toNat - 48)) 0)
  else none

/-- Python `int(s)` on a string: optional surrounding whitespace, an optional
sign, then a non-empty run of decimal digits; `none` models `ValueError`.
(Digit-group underscores are not modelled; no input below uses them.) -/
def pyInt (s : String) : Option Int :=
  match trimChars s.data with
  | '+' :: rest => (digitsVal rest).map Int.ofNat
  | '-' :: rest => (digitsVal rest).map (fun n => -(n : Int))
  | l => (digitsVal l).map Int.ofNat

/-- The month abbreviation table of `BaseGenerator._format_date`. -/
def months : List String :=
  ["Jan", "Feb", "Mar", "Apr", "May", "Jun",
   "Jul", "Aug", "Sep", "Oct", "Nov", "Dec"]

/-- `BaseGenerator._format_date` (base.py): empty input gives `""`; split on
`"-"`; with at least two segments whose second parses as an integer giving a
month index in range, return `"<Mon> <first segment>"`; otherwise return the
input unchanged. -/
def format_date (date_str : String) : String :=
  if date_str.isEmpty then ""
  else
    match pySplitDash date_str with
    | year :: month :: _ =>
      match pyInt month with
      | some m =>
        let month_idx : Int := m - 1
        if 0 ≤ month_idx ∧ month_idx < 12 then
          (months.getD month_idx.toNat "") ++ " " ++ year
        else date_str
      | none => date_str
    | _ => date_str

/-- `BaseGenerator.format_date_range` (base.py), with Python truthiness on
the two optional arguments. -/
def format_date_range (start : Option String) (stop : Option String) : String :=
  if !pystr start && !pystr stop then ""
  else if pystr start && !pystr stop then
    format_date (start.getD "") ++ " - Present"
  else if !pystr start && pystr stop then
    "Until " ++ format_date (stop.getD "")
  else
    format_date (start.getD "") ++ " - " ++ format_date (stop.getD "")

/-! ## Data model (schema.py) -/

structure Location where
  address : Option String := none
  postalCode : Option String := none
  city : Option String := none
  countryCode : Option String := none
  region : Option String := none
  deriving DecidableEq, Repr

structure Profile where
  network : Option String := none
  username : Option String := none
  url : Option String := none
  deriving DecidableEq, Repr

structure Basics where
  name : Option String := none
  label : Option String := none
  image : Option String := none
  email : Option String := none
  phone : Option String := none
  url : Option String := none
  summary : Option String := none
  location : Option Location := none
  profiles : List Profile := []
  deriving DecidableEq, Repr

structure Work where
  name : Option String := none
  position : Option String := none
  url : Option String := none
  startDate : Option String := none
  endDate : Option String := none
  summary : Option String := none
  highlights : List String := []
  deriving DecidableEq, Repr

structure Volunteer where
  organization : Option String := none
  position : Option String := none
  url : Option String := none
  startDate : Option String := none
  endDate : Option String := none
  summary : Option String := none
  highlights : List String := []
  deriving DecidableEq, Repr

structure Education where
  institution : Option String := none
  url : Option String := none
  area : Option String := none
  studyType : Option String := none
  startDate : Option String := none
  endDate : Option String := none
  score : Option String := none
  courses : List String := []
  deriving DecidableEq, Repr

structure Award where
  title : Option String := none
  date : Option String := none
  awarder : Option String := none
  summary : Option String := none
  deriving DecidableEq, Repr

structure Certificate where
  name : Option String := none
  date : Option String := none
  issuer : Option String := none
  url : Option String := none
  deriving DecidableEq, Repr

structure Publication where
  name : Option String := none
  publisher : Option String := none
  releaseDate : Option String := none
  url : Option String := none
  summary : Option String := none
  deriving DecidableEq, Repr

structure Skill where
  name : Option String := none
  level : Option String := none
  keywords : List String := []
  deriving DecidableEq, Repr

structure Language where
  language : Option String := none
  fluency : Option String := none
  deriving DecidableEq, Repr

structure Interest where
  name : Option String := none
  keywords : List String := []
  deriving DecidableEq, Repr

structure Reference where
  name : Option String := none
  reference : Option String := none
  deriving DecidableEq, Repr

structure Project where
  name : Option String := none
  startDate : Option String := none
  endDate : Option String := none
  description : Option String := none
  highlights : List String := []
  url : Option String := none
  deriving DecidableEq, Repr

structure Resume where
  basics : Option Basics := none
  work : List Work := []
  volunteer : List Volunteer := []
  education : List Education := []
  awards : List Award := []
  certificates : List Certificate := []
  publications : List Publication := []
  skills : List Skill := []
  languages : List Language := []
  interests : List Interest := []
  references : List Reference := []
  projects : List Project := []
  deriving DecidableEq, Repr

/-- Append a singleton block under a condition: the `if cond: elements.append(x)`
idiom used throughout both generators. -/
def optBlock {α : Type} (c : Bool) (b : α) : List α :=
  if c then [b] else []

/-- Append a sub-list under a condition (`if cond:` followed by several appends). -/
def optList {α : Type} (c : Bool) (l : List α) : List α :=
  if c then l else []

/-- The profile loop body duplicated verbatim in `PDFGenerator._build_header`
and `DOCXGenerator._build_header`: `"{network}: {username}"` when both are
truthy, else the explicit url when truthy, else nothing. -/
def profilePart (p : Profile) : Option String :=
  if pystr p.network && pystr p.username then
    some ((p.network.getD "") ++ ": " ++ (p.username.getD ""))
  else if pystr p.url then
    some (p.url.getD "")
  else none

/-- The contact line parts shared by both `_build_header` implementations:
email, phone, url, then `"city, region, countryCode"` (truthy parts only,
line only when the location object is present and some part is truthy). -/
def contactParts (b : Basics) : List String :=
  optBlock (pystr b.email) (b.email.getD "") ++
  optBlock (pystr b.phone) (b.phone.getD "") ++
  optBlock (pystr b.url) (b.url.getD "") ++
  (match b.location with
   | some loc =>
     let loc_parts := ([loc.city, loc.region, loc.countryCode].filterMap
       (fun o => if pystr o then o else none))
     optBlock (!loc_parts.isEmpty) (String.intercalate ", " loc_parts)
   | none => [])

/-! ## PDF renderer (pdf_generator.py)

Flowable elements of the story, at the text level: each `Paragraph(text,
styles[k])` call becomes a `PBlock.para` tagged with the stylesheet entry
name `k` (the theme-dependent colors and fonts live in the style table,
not in the composed story), `Spacer(w, h)` becomes `PBlock.spacer`, and the
`HRFlowable` divider becomes `PBlock.divider`. -/

inductive PStyle : Type
  | nameSt | label | contact | sectionTitle | itemTitle | itemSubtitle | body | bulletItem
  deriving DecidableEq, Repr

inductive PBlock : Type
  | para (style : PStyle) (text : String)
  | spacer (w h : Nat)
  | divider
  deriving DecidableEq, Repr

/-- `PDFGenerator._build_header`: name, label, contact line, profile line,
summary — each only when truthy — then unconditionally the divider. -/
def pdfBuildHeader (b : Basics) : List PBlock :=
  optBlock (pystr b.name) (.para .nameSt (b.name.getD "")) ++
  optBlock (pystr b.label) (.para .label (b.label.getD "")) ++
  (let contact_parts := contactParts b
   optBlock (!contact_parts.isEmpty)
     (.para .contact (String.intercalate " | " contact_parts))) ++
  optList (!b.profiles.isEmpty)
    (let profile_parts := b.profiles.filterMap profilePart
     optBlock (!profile_parts.isEmpty)
       (.para .contact (String.intercalate " | " profile_parts))) ++
  optList (pystr b.summary)
    [.spacer 1 8, .para .body (b.summary.getD "")] ++
  [.divider]

/-- One iteration of the `PDFGenerator._build_work_section` loop. -/
def pdfWorkEntry (job : Work) : List PBlock :=
  (let title_parts :=
     optBlock (pystr job.position) (job.position.getD "") ++
     optBlock (pystr job.name) ("at " ++ job.name.getD "")
   optBlock (!title_parts.isEmpty)
     (.para .itemTitle (String.intercalate " " title_parts))) ++
  (let date_range := format_date_range job.startDate job.endDate
   optBlock (!date_range.isEmpty) (.para .itemSubtitle date_range)) ++
  optBlock (pystr job.summary) (.para .body (job.summary.getD "")) ++
  job.highlights.map (fun h => .para .bulletItem ("• " ++ h)) ++
  [.spacer 1 8]

def pdfBuildWorkSection (l : List Work) : List PBlock :=
  .para .sectionTitle "EXPERIENCE" :: (l.map pdfWorkEntry).flatten

/-- One iteration of the `PDFGenerator._build_education_section` loop. -/
def pdfEducationEntry (edu : Education) : List PBlock :=
  (let title_parts :=
     optBlock (pystr edu.studyType) (edu.studyType.getD "") ++
     optBlock (pystr edu.area) ("in " ++ edu.area.getD "")
   optBlock (!title_parts.isEmpty)
     (.para .itemTitle (String.intercalate " " title_parts))) ++
  optBlock (pystr edu.institution)
    (.para .itemSubtitle ((edu.institution.getD "") ++
      (if pystr edu.score then " | GPA: " ++ edu.score.getD "" else ""))) ++
  (let date_range := format_date_range edu.startDate edu.endDate
   optBlock (!date_range.isEmpty) (.para .itemSubtitle date_range)) ++
  optBlock (!edu.courses.isEmpty)
    (.para .body ("Courses: " ++ String.intercalate ", " edu.courses)) ++
  [.spacer 1 6]

def pdfBuildEducationSection (l : List Education) : List PBlock :=
  .para .sectionTitle "EDUCATION" :: (l.map pdfEducationEntry).flatten

/-- The one-line skill text of `PDFGenerator._build_skills_section`: bold
name, optional level parenthetical, optional keyword list; empty when the
name is not truthy. -/
def pdfSkillText (skill : Skill) : String :=
  if pystr skill.name then
    "<b>" ++ skill.name.getD "" ++ "</b>" ++
    (if pystr skill.level then " (" ++ skill.level.getD "" ++ ")" else "") ++
    (if !skill.keywords.isEmpty then
      ": " ++ String.intercalate ", " skill.keywords else "")
  else ""

/-- `PDFGenerator._build_skills_section`: one body paragraph is appended per
skill unconditionally (with empty text when the name is not truthy). -/
def pdfBuildSkillsSection (l : List Skill) : List PBlock :=
  .para .sectionTitle "SKILLS" ::
    l.map (fun skill => .para .body (pdfSkillText skill)) ++ [.spacer 1 6]

/-- One iteration of the `PDFGenerator._build_projects_section` loop. -/
def pdfProjectEntry (project : Project) : List PBlock :=
  optBlock (pystr project.name) (.para .itemTitle (project.name.getD "")) ++
  (let date_range := format_date_range project.startDate project.endDate
   optBlock (!date_range.isEmpty) (.para .itemSubtitle date_range)) ++
  optBlock (pystr project.description) (.para .body (project.description.getD "")) ++
  project.highlights.map (fun h => .para .bulletItem ("• " ++ h)) ++
  optBlock (pystr project.url) (.para .itemSubtitle (project.url.getD "")) ++
  [.spacer 1 6]

def pdfBuildProjectsSection (l : List Project) : List PBlock :=
  .para .sectionTitle "PROJECTS" :: (l.map pdfProjectEntry).flatten

/-- One iteration of the `PDFGenerator._build_certificates_section` loop. -/
def pdfCertificateEntry (cert : Certificate) : List PBlock :=
  optBlock (pystr cert.name) (.para .itemTitle (cert.name.getD "")) ++
  (let subtitle_parts :=
     optBlock (pystr cert.issuer) (cert.issuer.getD "") ++
     optBlock (pystr cert.date) (format_date (cert.date.getD ""))
   optBlock (!subtitle_parts.isEmpty)
     (.para .itemSubtitle (String.intercalate " | " subtitle_parts))) ++
  [.spacer 1 4]

def pdfBuildCertificatesSection (l : List Certificate) : List PBlock :=
  .para .sectionTitle "CERTIFICATES" :: (l.map pdfCertificateEntry).flatten

/-- One iteration of the `PDFGenerator._build_awards_section` loop. -/
def pdfAwardEntry (award : Award) : List PBlock :=
  optBlock (pystr award.title) (.para .itemTitle (award.title.getD "")) ++
  (let subtitle_parts :=
     optBlock (pystr award.awarder) (award.awarder.getD "") ++
     optBlock (pystr award.date) (format_date (award.date.getD ""))
   optBlock (!subtitle_parts.isEmpty)
     (.para .itemSubtitle (String.intercalate " | " subtitle_parts))) ++
  optBlock (pystr award.summary) (.para .body (award.summary.getD "")) ++
  [.spacer 1 4]

def pdfBuildAwardsSection (l : List Award) : List PBlock :=
  .para .sectionTitle "AWARDS" :: (l.map pdfAwardEntry).flatten

/-- One iteration of the `PDFGenerator._build_publications_section` loop. -/
def pdfPublicationEntry (pub : Publication) : List PBlock :=
  optBlock (pystr pub.name) (.para .itemTitle (pub.name.getD "")) ++
  (let subtitle_parts :=
     optBlock (pystr pub.publisher) (pub.publisher.getD "") ++
     optBlock (pystr pub.releaseDate) (format_date (pub.releaseDate.getD ""))
   optBlock (!subtitle_parts.isEmpty)
     (.para .itemSubtitle (String.intercalate " | " subtitle_parts))) ++
  optBlock (pystr pub.summary) (.para .body (pub.summary.getD "")) ++
  [.spacer 1 4]

def pdfBuildPublicationsSection (l : List Publication) : List PBlock :=
  .para .sectionTitle "PUBLICATIONS" :: (l.map pdfPublicationEntry).flatten

/-- One iteration of the `PDFGenerator._build_volunteer_section` loop. -/
def pdfVolunteerEntry (vol : Volunteer) : List PBlock :=
  (let title_parts :=
     optBlock (pystr vol.position) (vol.position.getD "") ++
     optBlock (pystr vol.organization) ("at " ++ vol.organization.getD "")
   optBlock (!title_parts.isEmpty)
     (.para .itemTitle (String.intercalate " " title_parts))) ++
  (let date_range := format_date_range vol.startDate vol.endDate
   optBlock (!date_range.isEmpty) (.para .itemSubtitle date_range)) ++
  optBlock (pystr vol.summary) (.para .body (vol.summary.getD "")) ++
  vol.highlights.map (fun h => .para .bulletItem ("• " ++ h)) ++
  [.spacer 1 6]

def pdfBuildVolunteerSection (l : List Volunteer) : List PBlock :=
  .para .sectionTitle "VOLUNTEER" :: (l.map pdfVolunteerEntry).flatten

/-- The joined language texts of both `_build_languages_section`s:
`"{language} ({fluency})"` for each truthy-named entry, the fluency
parenthetical only when truthy. -/
def languageTexts (l : List Language) : List String :=
  l.filterMap (fun lang =>
    if pystr lang.language then
      some ((lang.language.getD "") ++
        (if pystr lang.fluency then " (" ++ lang.fluency.getD "" ++ ")" else ""))
    else none)

def pdfBuildLanguagesSection (l : List Language) : List PBlock :=
  .para .sectionTitle "LANGUAGES" ::
    (let lang_texts := languageTexts l
     optBlock (!lang_texts.isEmpty)
       (.para .body (String.intercalate ", " lang_texts))) ++ [.spacer 1 6]

/-- One iteration of the `PDFGenerator._build_interests_section` loop:
a paragraph only when the name is truthy. -/
def pdfInterestEntry (interest : Interest) : List PBlock :=
  optBlock (pystr interest.name)
    (.para .body ("<b>" ++ interest.name.getD "" ++ "</b>" ++
      (if !interest.keywords.isEmpty then
        ": " ++ String.intercalate ", " interest.keywords else "")))

def pdfBuildInterestsSection (l : List Interest) : List PBlock :=
  .para .sectionTitle "INTERESTS" ::
    (l.map pdfInterestEntry).flatten ++ [.spacer 1 6]

/-- One iteration of the `PDFGenerator._build_references_section` loop. -/
def pdfReferenceEntry (ref : Reference) : List PBlock :=
  optBlock (pystr ref.name) (.para .itemTitle (ref.name.getD "")) ++
  optBlock (pystr ref.reference)
    (.para .body ("\"" ++ ref.reference.getD "" ++ "\"")) ++
  [.spacer 1 4]

def pdfBuildReferencesSection (l : List Reference) : List PBlock :=
  .para .sectionTitle "REFERENCES" :: (l.map pdfReferenceEntry).flatten

/-- The header contribution of `PDFGenerator.generate`
(`if self.resume.basics: story.extend(self._build_header())`). -/
def pdfHeaderPart (r : Resume) : List PBlock :=
  match r.basics with
  | some b => pdfBuildHeader b
  | none => []

/-- The story assembled by `PDFGenerator.generate`: header, then each
section in the source's fixed order, each guarded by list truthiness. -/
def pdfGenerate (r : Resume) : List PBlock :=
  pdfHeaderPart r ++
  optList (!r.work.isEmpty) (pdfBuildWorkSection r.work) ++
  optList (!r.education.isEmpty) (pdfBuildEducationSection r.education) ++
  optList (!r.skills.isEmpty) (pdfBuildSkillsSection r.skills) ++
  optList (!r.projects.isEmpty) (pdfBuildProjectsSection r.projects) ++
  optList (!r.certificates.isEmpty) (pdfBuildCertificatesSection r.certificates) ++
  optList (!r.awards.isEmpty) (pdfBuildAwardsSection r.awards) ++
  optList (!r.publications.isEmpty) (pdfBuildPublicationsSection r.publications) ++
  optList (!r.volunteer.isEmpty) (pdfBuildVolunteerSection r.volunteer) ++
  optList (!r.languages.isEmpty) (pdfBuildLanguagesSection r.languages) ++
  optList (!r.interests.isEmpty) (pdfBuildInterestsSection r.interests) ++
  optList (!r.references.isEmpty) (pdfBuildReferencesSection r.references)

/-! ## DOCX renderer (docx_generator.py)

A paragraph is modelled at the text/format level: alignment, spacing,
indent, and the list of runs added to it, each run carrying its text,
point size, bold/italic flags and a color role from the theme (the
concrete RGB values live in the theme table). -/

inductive DAlign : Type
  | left | center | justify
  deriving DecidableEq, Repr

inductive DColor : Type
  | primary | secondary | accent | default
  deriving DecidableEq, Repr

structure DRun where
  text : String
  size : Nat
  bold : Bool
  italic : Bool
  color : DColor
  deriving DecidableEq, Repr

structure DPara where
  align : DAlign
  spaceAfter : Nat
  spaceBefore : Nat
  indent : Nat
  runs : List DRun
  deriving DecidableEq, Repr

/-- `DOCXGenerator._add_paragraph(text, font_size, bold, italic, color,
alignment, space_after, space_before)`: one paragraph with a single run. -/
def addParagraph (text : String) (font_size : Nat) (bold italic : Bool)
    (color : DColor) (alignment : DAlign) (space_after space_before : Nat) : DPara :=
  { align := alignment, spaceAfter := space_after, spaceBefore := space_before,
    indent := 0, runs := [⟨text, font_size, bold, italic, color⟩] }

/-- `DOCXGenerator._add_section_title(title)`. -/
def addSectionTitle (title : String) : DPara :=
  addParagraph title 12 true false .accent .left 6 12

/-- A bulleted highlight paragraph (added then given a 0.25in left indent;
the indent is recorded in hundredths of an inch). -/
def docxHighlightPara (h : String) : DPara :=
  { addParagraph ("• " ++ h) 10 false false .primary .left 2 0 with indent := 25 }

/-- `DOCXGenerator._build_header`. -/
def docxBuildHeader (b : Basics) : List DPara :=
  optBlock (pystr b.name)
    (addParagraph (b.name.getD "") 24 true false .primary .center 4 0) ++
  optBlock (pystr b.label)
    (addParagraph (b.label.getD "") 14 false false .secondary .center 8 0) ++
  (let contact_parts := contactParts b
   optBlock (!contact_parts.isEmpty)
     (addParagraph (String.intercalate " | " contact_parts) 10 false false
       .secondary .center 8 0)) ++
  optList (!b.profiles.isEmpty)
    (let profile_parts := b.profiles.filterMap profilePart
     optBlock (!profile_parts.isEmpty)
       (addParagraph (String.intercalate " | " profile_parts) 10 false false
         .secondary .center 12 0)) ++
  optBlock (pystr b.summary)
    (addParagraph (b.summary.getD "") 10 false false .primary .justify 12 0)

/-- One iteration of the `DOCXGenerator._build_work_section` loop. -/
def docxWorkEntry (job : Work) : List DPara :=
  (let title_parts :=
     optBlock (pystr job.position) (job.position.getD "") ++
     optBlock (pystr job.name) ("at " ++ job.name.getD "")
   optBlock (!title_parts.isEmpty)
     (addParagraph (String.intercalate " " title_parts) 11 true false .primary .left 2 0)) ++
  (let date_range := format_date_range job.startDate job.endDate
   optBlock (!date_range.isEmpty)
     (addParagraph date_range 10 false false .secondary .left 4 0)) ++
  optBlock (pystr job.summary)
    (addParagraph (job.summary.getD "") 10 false false .primary .left 4 0) ++
  job.highlights.map docxHighlightPara

def docxBuildWorkSection (l : List Work) : List DPara :=
  addSectionTitle "EXPERIENCE" :: (l.map docxWorkEntry).flatten

/-- One iteration of the `DOCXGenerator._build_education_section` loop.
Note: unlike the PDF renderer, it never reads `courses`. -/
def docxEducationEntry (edu : Education) : List DPara :=
  (let title_parts :=
     optBlock (pystr edu.studyType) (edu.studyType.getD "") ++
     optBlock (pystr edu.area) ("in " ++ edu.area.getD "")
   optBlock (!title_parts.isEmpty)
     (addParagraph (String.intercalate " " title_parts) 11 true false .primary .left 2 0)) ++
  optBlock (pystr edu.institution)
    (addParagraph ((edu.institution.getD "") ++
      (if pystr edu.score then " | GPA: " ++ edu.score.getD "" else ""))
      10 false false .secondary .left 2 0) ++
  (let date_range := format_date_range edu.startDate edu.endDate
   optBlock (!date_range.isEmpty)
     (addParagraph date_range 10 false false .secondary .left 6 0))

def docxBuildEducationSection (l : List Education) : List DPara :=
  addSectionTitle "EDUCATION" :: (l.map docxEducationEntry).flatten

/-- One iteration of the `DOCXGenerator._build_skills_section` loop: a
multi-run paragraph only when the name is truthy (bold name run, optional
level run, optional keywords run). -/
def docxSkillEntry (skill : Skill) : List DPara :=
  optBlock (pystr skill.name)
    { align := .left, spaceAfter := 4, spaceBefore := 0, indent := 0,
      runs :=
        ⟨skill.name.getD "", 10, true, false, .primary⟩ ::
        optBlock (pystr skill.level)
          ⟨" (" ++ skill.level.getD "" ++ ")", 10, false, false, .secondary⟩ ++
        optBlock (!skill.keywords.isEmpty)
          ⟨": " ++ String.intercalate ", " skill.keywords, 10, false, false, .primary⟩ }

def docxBuildSkillsSection (l : List Skill) : List DPara :=
  addSectionTitle "SKILLS" :: (l.map docxSkillEntry).flatten

/-- One iteration of the `DOCXGenerator._build_projects_section` loop. -/
def docxProjectEntry (project : Project) : List DPara :=
  optBlock (pystr project.name)
    (addParagraph (project.name.getD "") 11 true false .primary .left 2 0) ++
  (let date_range := format_date_range project.startDate project.endDate
   optBlock (!date_range.isEmpty)
     (addParagraph date_range 10 false false .secondary .left 4 0)) ++
  optBlock (pystr project.description)
    (addParagraph (project.description.getD "") 10 false false .primary .left 4 0) ++
  project.highlights.map docxHighlightPara

def docxBuildProjectsSection (l : List Project) : List DPara :=
  addSectionTitle "PROJECTS" :: (l.map docxProjectEntry).flatten

/-- One iteration of the `DOCXGenerator._build_certificates_section` loop. -/
def docxCertificateEntry (cert : Certificate) : List DPara :=
  optBlock (pystr cert.name)
    (addParagraph (cert.name.getD "") 11 true false .primary .left 2 0) ++
  (let subtitle_parts :=
     optBlock (pystr cert.issuer) (cert.issuer.getD "") ++
     optBlock (pystr cert.date) (format_date (cert.date.getD ""))
   optBlock (!subtitle_parts.isEmpty)
     (addParagraph (String.intercalate " | " subtitle_parts) 10 false false
       .secondary .left 6 0))

def docxBuildCertificatesSection (l : List Certificate) : List DPara :=
  addSectionTitle "CERTIFICATES" :: (l.map docxCertificateEntry).flatten

/-- One iteration of the `DOCXGenerator._build_awards_section` loop. -/
def docxAwardEntry (award : Award) : List DPara :=
  optBlock (pystr award.title)
    (addParagraph (award.title.getD "") 11 true false .primary .left 2 0) ++
  (let subtitle_parts :=
     optBlock (pystr award.awarder) (award.awarder.getD "") ++
     optBlock (pystr award.date) (format_date (award.date.getD ""))
   optBlock (!subtitle_parts.isEmpty)
     (addParagraph (String.intercalate " | " subtitle_parts) 10 false false
       .secondary .left 4 0)) ++
  optBlock (pystr award.summary)
    (addParagraph (award.summary.getD "") 10 false false .primary .left 6 0)

def docxBuildAwardsSection (l : List Award) : List DPara :=
  addSectionTitle "AWARDS" :: (l.map docxAwardEntry).flatten

/-- One iteration of the `DOCXGenerator._build_publications_section` loop. -/
def docxPublicationEntry (pub : Publication) : List DPara :=
  optBlock (pystr pub.name)
    (addParagraph (pub.name.getD "") 11 true false .primary .left 2 0) ++
  (let subtitle_parts :=
     optBlock (pystr pub.publisher) (pub.publisher.getD "") ++
     optBlock (pystr pub.releaseDate) (format_date (pub.releaseDate.getD ""))
   optBlock (!subtitle_parts.isEmpty)
     (addParagraph (String.intercalate " | " subtitle_parts) 10 false false
       .secondary .left 4 0)) ++
  optBlock (pystr pub.summary)
    (addParagraph (pub.summary.getD "") 10 false false .primary .left 6 0)

def docxBuildPublicationsSection (l : List Publication) : List DPara :=
  addSectionTitle "PUBLICATIONS" :: (l.map docxPublicationEntry).flatten

/-- One iteration of the `DOCXGenerator._build_volunteer_section` loop. -/
def docxVolunteerEntry (vol : Volunteer) : List DPara :=
  (let title_parts :=
     optBlock (pystr vol.position) (vol.position.getD "") ++
     optBlock (pystr vol.organization) ("at " ++ vol.organization.getD "")
   optBlock (!title_parts.isEmpty)
     (addParagraph (String.intercalate " " title_parts) 11 true false .primary .left 2 0)) ++
  (let date_range := format_date_range vol.startDate vol.endDate
   optBlock (!date_range.isEmpty)
     (addParagraph date_range 10 false false .secondary .left 4 0)) ++
  optBlock (pystr vol.summary)
    (addParagraph (vol.summary.getD "") 10 false false .primary .left 4 0) ++
  vol.highlights.map docxHighlightPara

def docxBuildVolunteerSection (l : List Volunteer) : List DPara :=
  addSectionTitle "VOLUNTEER" :: (l.map docxVolunteerEntry).flatten

def docxBuildLanguagesSection (l : List Language) : List DPara :=
  addSectionTitle "LANGUAGES" ::
    (let lang_texts := languageTexts l
     optBlock (!lang_texts.isEmpty)
       (addParagraph (String.intercalate ", " lang_texts) 10 false false
         .primary .left 6 0))

/-- One iteration of the `DOCXGenerator._build_interests_section` loop:
a multi-run paragraph only when the name is truthy. -/
def docxInterestEntry (interest : Interest) : List DPara :=
  optBlock (pystr interest.name)
    { align := .left, spaceAfter := 4, spaceBefore := 0, indent := 0,
      runs :=
        ⟨interest.name.getD "", 10, true, false, .primary⟩ ::
        optBlock (!interest.keywords.isEmpty)
          ⟨": " ++ String.intercalate ", " interest.keywords, 10, false, false, .primary⟩ }

def docxBuildInterestsSection (l : List Interest) : List DPara :=
  addSectionTitle "INTERESTS" :: (l.map docxInterestEntry).flatten

/-- One iteration of the `DOCXGenerator._build_references_section` loop. -/
def docxReferenceEntry (ref : Reference) : List DPara :=
  optBlock (pystr ref.name)
    (addParagraph (ref.name.getD "") 11 true false .primary .left 2 0) ++
  optBlock (pystr ref.reference)
    (addParagraph ("\"" ++ ref.reference.getD "" ++ "\"") 10 false true .primary .left 6 0)

def docxBuildReferencesSection (l : List Reference) : List DPara :=
  addSectionTitle "REFERENCES" :: (l.map docxReferenceEntry).flatten

/-- The header contribution of `DOCXGenerator.generate`. -/
def docxHeaderPart (r : Resume) : List DPara :=
  match r.basics with
  | some b => docxBuildHeader b
  | none => []

/-- The paragraph sequence appended to the document body by one
`DOCXGenerator.generate` call: header, then each section in the source's
fixed order, each guarded by list truthiness. -/
def docxGenerate (r : Resume) : List DPara :=
  docxHeaderPart r ++
  optList (!r.work.isEmpty) (docxBuildWorkSection r.work) ++
  optList (!r.education.isEmpty) (docxBuildEducationSection r.education) ++
  optList (!r.skills.isEmpty) (docxBuildSkillsSection r.skills) ++
  optList (!r.projects.isEmpty) (docxBuildProjectsSection r.projects) ++
  optList (!r.certificates.isEmpty) (docxBuildCertificatesSection r.certificates) ++
  optList (!r.awards.isEmpty) (docxBuildAwardsSection r.awards) ++
  optList (!r.publications.isEmpty) (docxBuildPublicationsSection r.publications) ++
  optList (!r.volunteer.isEmpty) (docxBuildVolunteerSection r.volunteer) ++
  optList (!r.languages.isEmpty) (docxBuildLanguagesSection r.languages) ++
  optList (!r.interests.isEmpty) (docxBuildInterestsSection r.interests) ++
  optList (!r.references.isEmpty) (docxBuildReferencesSection r.references)

/-- One `DOCXGenerator.generate` call as a transition on the paragraph list
held by `self.doc`, which the constructor creates once and `generate`
appends to before saving: the call leaves the document state `doc'` equal to
`doc ++ docxGenerate r`, and the saved file body is that same `doc'`. -/
def docxGenStep (doc : List DPara) (r : Resume) : List DPara × List DPara :=
  let d := doc ++ docxGenerate r
  (d, d)

/-! ## The eleven list-backed sections, uniformly -/

inductive Sect : Type
  | work | volunteer | education | awards | certificates | publications
  | skills | languages | interests | references | projects
  deriving DecidableEq, Repr

def sectTitle : Sect → String
  | .work => "EXPERIENCE"
  | .volunteer => "VOLUNTEER"
  | .education => "EDUCATION"
  | .awards => "AWARDS"
  | .certificates => "CERTIFICATES"
  | .publications => "PUBLICATIONS"
  | .skills => "SKILLS"
  | .languages => "LANGUAGES"
  | .interests => "INTERESTS"
  | .references => "REFERENCES"
  | .projects => "PROJECTS"

/-- Number of entries of a list-backed section. -/
def sectLen (r : Resume) : Sect → Nat
  | .work => r.work.length
  | .volunteer => r.volunteer.length
  | .education => r.education.length
  | .awards => r.awards.length
  | .certificates => r.certificates.length
  | .publications => r.publications.length
  | .skills => r.skills.length
  | .languages => r.languages.length
  | .interests => r.interests.length
  | .references => r.references.length
  | .projects => r.projects.length

/-- The blocks a PDF section builder emits after its heading. -/
def pdfSectBody (r : Resume) : Sect → List PBlock
  | .work => (r.work.map pdfWorkEntry).flatten
  | .volunteer => (r.volunteer.map pdfVolunteerEntry).flatten
  | .education => (r.education.map pdfEducationEntry).flatten
  | .awards => (r.awards.map pdfAwardEntry).flatten
  | .certificates => (r.certificates.map pdfCertificateEntry).flatten
  | .publications => (r.publications.map pdfPublicationEntry).flatten
  | .skills =>
    r.skills.map (fun skill => .para .body (pdfSkillText skill)) ++ [.spacer 1 6]
  | .languages =>
    (let lang_texts := languageTexts r.languages
     optBlock (!lang_texts.isEmpty)
       (.para .body (String.intercalate ", " lang_texts))) ++ [.spacer 1 6]
  | .interests => (r.interests.map pdfInterestEntry).flatten ++ [.spacer 1 6]
  | .references => (r.references.map pdfReferenceEntry).flatten
  | .projects => (r.projects.map pdfProjectEntry).flatten

/-- The paragraphs a DOCX section builder emits after its heading. -/
def docxSectBody (r : Resume) : Sect → List DPara
  | .work => (r.work.map docxWorkEntry).flatten
  | .volunteer => (r.volunteer.map docxVolunteerEntry).flatten
  | .education => (r.education.map docxEducationEntry).flatten
  | .awards => (r.awards.map docxAwardEntry).flatten
  | .certificates => (r.certificates.map docxCertificateEntry).flatten
  | .publications => (r.publications.map docxPublicationEntry).flatten
  | .skills => (r.skills.map docxSkillEntry).flatten
  | .languages =>
    (let lang_texts := languageTexts r.languages
     optBlock (!lang_texts.isEmpty)
       (addParagraph (String.intercalate ", " lang_texts) 10 false false
         .primary .left 6 0))
  | .interests => (r.interests.map docxInterestEntry).flatten
  | .references => (r.references.map docxReferenceEntry).flatten
  | .projects => (r.projects.map docxProjectEntry).flatten

/-- The order in which `generate` tries the list-backed sections, identical
in both renderers. -/
def sectOrder : List Sect :=
  [.work, .education, .skills, .projects, .certificates, .awards,
   .publications, .volunteer, .languages, .interests, .references]

/-- A PDF story block is a section heading exactly when it is a paragraph in
the `SectionTitle` style — the style used only by the heading line of each
section builder. -/
def isPdfTitle : PBlock → Bool
  | .para .sectionTitle _ => true
  | _ => false

/-- A PDF section heading with the given text. -/
def isPdfTitleNamed (t : String) : PBlock → Bool
  | .para .sectionTitle s => s == t
  | _ => false

/-- A DOCX paragraph is a section heading exactly when its `space_before` is
12pt: `_add_section_title` is the only paragraph-producing call site passing
a non-zero `space_before`. -/
def isDocxTitle (p : DPara) : Bool :=
  p.spaceBefore == 12

/-- A DOCX section heading with the given text. -/
def isDocxTitleNamed (t : String) (p : DPara) : Bool :=
  p.spaceBefore == 12 && p.runs == [⟨t, 12, true, false, DColor.accent⟩]

/-! ## Spec-modelled collaborators

The repository delegates markup escaping, URL resolution and binary
serialization either to external libraries or (per the spec) to components
that do not exist under `src/`; the following definitions model them from
the spec's words so that claims about them can be stated. -/

/-- Modelled from the spec: the reserved-markup escaping (§4.5) that free
text must undergo before composer-inserted bold tags are added; no escaping
helper exists anywhere under `src/`. -/
def escChar : Char → List Char
  | '&' => "&amp;".toList
  | '<' => "&lt;".toList
  | '>' => "&gt;".toList
  | '"' => "&quot;".toList
  | c => [c]

/-- Modelled from the spec: escape `&`, `<`, `>` and quotes in a string. -/
def spec_escape (s : String) : String :=
  String.mk (s.toList.map escChar).flatten

/-- Modelled from the spec: `resolveProfileUrl` (§4.2) — prefer the explicit
URL; else derive from a fixed table keyed by the trimmed, case-insensitive
network name; else absent. No such resolver or table exists under `src/`. -/
def spec_resolveProfileUrl (network username explicitUrl : Option String) :
    Option String :=
  match explicitUrl with
  | some u => some u
  | none =>
    match network, username with
    | some n, some u =>
      let key := String.mk ((trimChars n.data).map Char.toLower)
      if key == "github" then some ("https://github.com/" ++ u)
      else if key == "linkedin" then some ("https://www.linkedin.com/in/" ++ u)
      else if key == "twitter" then some ("https://twitter.com/" ++ u)
      else if key == "youtube" then some ("https://www.youtube.com/@" ++ u)
      else if key == "google scholar" then
        some ("https://scholar.google.com/citations?user=" ++ u)
      else if key == "orcid" then some ("https://orcid.org/" ++ u)
      else none
    | _, _ => none

/-- Modelled from the spec: the external page-description serializer (§6,
ReportLab's `SimpleDocTemplate.build`): the file begins with the `%PDF`
signature and carries non-empty trailer content even for an empty story. -/
def pdfSerialize (story : List PBlock) : List Char :=
  "%PDF-1.4\n".toList ++
  (story.map (fun b => match b with
    | .para _ t => t.toList ++ ['\n']
    | .spacer _ _ => []
    | .divider => [])).flatten ++
  "\n%%EOF\n".toList

structure ZipEntry where
  name : String
  content : String
  deriving DecidableEq, Repr

/-- Modelled from the spec: the external word-processor package writer (§6,
python-docx `Document.save`): a ZIP container whose entry list includes a
`word/document.xml` member holding the paragraphs. -/
def docxSave (body : List DPara) : List ZipEntry :=
  [⟨"[Content_Types].xml", "<Types/>"⟩,
   ⟨"word/document.xml",
     "<w:document><w:body>" ++
     String.join (body.map (fun p => String.join (p.runs.map DRun.text))) ++
     "</w:body></w:document>"⟩]

/-! ## Counting and decomposition lemmas -/

@[simp]
lemma countP_optBlock {α : Type} (p : α → Bool) (c : Bool) (b : α) :
    (optBlock c b).countP p = if c then (if p b then 1 else 0) else 0 := by
  cases c <;> simp [optBlock, List.countP_cons]

@[simp]
lemma countP_optList {α : Type} (p : α → Bool) (c : Bool) (l : List α) :
    (optList c l).countP p = if c then l.countP p else 0 := by
  cases c <;> simp [optList]

lemma countP_flatten_map_zero {α β : Type} (p : β → Bool) (f : α → List β)
    (h : ∀ x, (f x).countP p = 0) (l : List α) :
    ((l.map f).flatten).countP p = 0 := by
  induction l with
  | nil => simp
  | cons a as ih => simp [List.countP_append, h, ih]

lemma pdfWorkEntry_noTitle (j : Work) : (pdfWorkEntry j).countP isPdfTitle = 0 := by
  simp [pdfWorkEntry, List.countP_append, List.countP_cons, List.countP_map,
    Function.comp_def, isPdfTitle]

lemma pdfVolunteerEntry_noTitle (v : Volunteer) :
    (pdfVolunteerEntry v).countP isPdfTitle = 0 := by
  simp [pdfVolunteerEntry, List.countP_append, List.countP_cons, List.countP_map,
    Function.comp_def, isPdfTitle]

lemma pdfEducationEntry_noTitle (e : Education) :
    (pdfEducationEntry e).countP isPdfTitle = 0 := by
  simp [pdfEducationEntry, List.countP_append, List.countP_cons, isPdfTitle]

lemma pdfAwardEntry_noTitle (a : Award) : (pdfAwardEntry a).countP isPdfTitle = 0 := by
  simp [pdfAwardEntry, List.countP_append, List.countP_cons, isPdfTitle]

lemma pdfCertificateEntry_noTitle (c : Certificate) :
    (pdfCertificateEntry c).countP isPdfTitle = 0 := by
  simp [pdfCertificateEntry, List.countP_append, List.countP_cons, isPdfTitle]

lemma pdfPublicationEntry_noTitle (p : Publication) :
    (pdfPublicationEntry p).countP isPdfTitle = 0 := by
  simp [pdfPublicationEntry, List.countP_append, List.countP_cons, isPdfTitle]

lemma pdfProjectEntry_noTitle (p : Project) :
    (pdfProjectEntry p).countP isPdfTitle = 0 := by
  simp [pdfProjectEntry, List.countP_append, List.countP_cons, List.countP_map,
    Function.comp_def, isPdfTitle]

lemma pdfInterestEntry_noTitle (i : Interest) :
    (pdfInterestEntry i).countP isPdfTitle = 0 := by
  simp [pdfInterestEntry, isPdfTitle]

lemma pdfReferenceEntry_noTitle (ref : Reference) :
    (pdfReferenceEntry ref).countP isPdfTitle = 0 := by
  simp [pdfReferenceEntry, List.countP_append, List.countP_cons, isPdfTitle]

lemma pdfSectBody_noTitle (r : Resume) (s : Sect) :
    (pdfSectBody r s).countP isPdfTitle = 0 := by
  cases s
  case work => exact countP_flatten_map_zero _ _ pdfWorkEntry_noTitle _
  case volunteer => exact countP_flatten_map_zero _ _ pdfVolunteerEntry_noTitle _
  case education => exact countP_flatten_map_zero _ _ pdfEducationEntry_noTitle _
  case awards => exact countP_flatten_map_zero _ _ pdfAwardEntry_noTitle _
  case certificates => exact countP_flatten_map_zero _ _ pdfCertificateEntry_noTitle _
  case publications => exact countP_flatten_map_zero _ _ pdfPublicationEntry_noTitle _
  case skills =>
    simp [pdfSectBody, List.countP_append, List.countP_cons, List.countP_map,
      Function.comp_def, isPdfTitle]
  case languages =>
    simp [pdfSectBody, List.countP_append, List.countP_cons, isPdfTitle]
  case interests =>
    simp only [pdfSectBody, List.countP_append]
    rw [countP_flatten_map_zero _ _ pdfInterestEntry_noTitle _]
    simp [isPdfTitle, List.countP_cons]
  case references => exact countP_flatten_map_zero _ _ pdfReferenceEntry_noTitle _
  case projects => exact countP_flatten_map_zero _ _ pdfProjectEntry_noTitle _

lemma pdfBuildHeader_noTitle (b : Basics) :
    (pdfBuildHeader b).countP isPdfTitle = 0 := by
  simp [pdfBuildHeader, List.countP_append, List.countP_cons, isPdfTitle]

lemma pdfHeaderPart_noTitle (r : Resume) :
    (pdfHeaderPart r).countP isPdfTitle = 0 := by
  cases hb : r.basics <;> simp [pdfHeaderPart, hb, pdfBuildHeader_noTitle]

lemma isPdfTitleNamed_imp (t : String) :
    ∀ b, isPdfTitleNamed t b = true → isPdfTitle b = true := by
  intro b
  cases b with
  | para st s => cases st <;> simp [isPdfTitleNamed, isPdfTitle]
  | spacer w h => simp [isPdfTitleNamed]
  | divider => simp [isPdfTitleNamed]

lemma pdfSectBody_noTitleNamed (t : String) (r : Resume) (s : Sect) :
    (pdfSectBody r s).countP (isPdfTitleNamed t) = 0 :=
  Nat.le_zero.mp (le_of_le_of_eq
    (List.countP_mono_left (fun b _ => isPdfTitleNamed_imp t b))
    (pdfSectBody_noTitle r s))

lemma pdfHeaderPart_noTitleNamed (t : String) (r : Resume) :
    (pdfHeaderPart r).countP (isPdfTitleNamed t) = 0 :=
  Nat.le_zero.mp (le_of_le_of_eq
    (List.countP_mono_left (fun b _ => isPdfTitleNamed_imp t b))
    (pdfHeaderPart_noTitle r))

lemma docxWorkEntry_noTitle (j : Work) : (docxWorkEntry j).countP isDocxTitle = 0 := by
  simp [docxWorkEntry, List.countP_append, List.countP_cons, List.countP_map,
    Function.comp_def, isDocxTitle, addParagraph, docxHighlightPara]

lemma docxVolunteerEntry_noTitle (v : Volunteer) :
    (docxVolunteerEntry v).countP isDocxTitle = 0 := by
  simp [docxVolunteerEntry, List.countP_append, List.countP_cons, List.countP_map,
    Function.comp_def, isDocxTitle, addParagraph, docxHighlightPara]

lemma docxEducationEntry_noTitle (e : Education) :
    (docxEducationEntry e).countP isDocxTitle = 0 := by
  simp [docxEducationEntry, List.countP_append, List.countP_cons, isDocxTitle, addParagraph]

lemma docxAwardEntry_noTitle (a : Award) : (docxAwardEntry a).countP isDocxTitle = 0 := by
  simp [docxAwardEntry, List.countP_append, List.countP_cons, isDocxTitle, addParagraph]

lemma docxCertificateEntry_noTitle (c : Certificate) :
    (docxCertificateEntry c).countP isDocxTitle = 0 := by
  simp [docxCertificateEntry, List.countP_append, List.countP_cons, isDocxTitle, addParagraph]

lemma docxPublicationEntry_noTitle (p : Publication) :
    (docxPublicationEntry p).countP isDocxTitle = 0 := by
  simp [docxPublicationEntry, List.countP_append, List.countP_cons, isDocxTitle, addParagraph]

lemma docxProjectEntry_noTitle (p : Project) :
    (docxProjectEntry p).countP isDocxTitle = 0 := by
  simp [docxProjectEntry, List.countP_append, List.countP_cons, List.countP_map,
    Function.comp_def, isDocxTitle, addParagraph, docxHighlightPara]

lemma docxSkillEntry_noTitle (sk : Skill) : (docxSkillEntry sk).countP isDocxTitle = 0 := by
  simp [docxSkillEntry, isDocxTitle]

lemma docxInterestEntry_noTitle (i : Interest) :
    (docxInterestEntry i).countP isDocxTitle = 0 := by
  simp [docxInterestEntry, isDocxTitle]

lemma docxReferenceEntry_noTitle (ref : Reference) :
    (docxReferenceEntry ref).countP isDocxTitle = 0 := by
  simp [docxReferenceEntry, List.countP_append, List.countP_cons, isDocxTitle, addParagraph]

lemma docxSectBody_noTitle (r : Resume) (s : Sect) :
    (docxSectBody r s).countP isDocxTitle = 0 := by
  cases s
  case work => exact countP_flatten_map_zero _ _ docxWorkEntry_noTitle _
  case volunteer => exact countP_flatten_map_zero _ _ docxVolunteerEntry_noTitle _
  case education => exact countP_flatten_map_zero _ _ docxEducationEntry_noTitle _
  case awards => exact countP_flatten_map_zero _ _ docxAwardEntry_noTitle _
  case certificates => exact countP_flatten_map_zero _ _ docxCertificateEntry_noTitle _
  case publications => exact countP_flatten_map_zero _ _ docxPublicationEntry_noTitle _
  case skills => exact countP_flatten_map_zero _ _ docxSkillEntry_noTitle _
  case languages => simp [docxSectBody, isDocxTitle, addParagraph]
  case interests => exact countP_flatten_map_zero _ _ docxInterestEntry_noTitle _
  case references => exact countP_flatten_map_zero _ _ docxReferenceEntry_noTitle _
  case projects => exact countP_flatten_map_zero _ _ docxProjectEntry_noTitle _

lemma docxBuildHeader_noTitle (b : Basics) :
    (docxBuildHeader b).countP isDocxTitle = 0 := by
  simp [docxBuildHeader, List.countP_append, List.countP_cons, isDocxTitle, addParagraph]

lemma docxHeaderPart_noTitle (r : Resume) :
    (docxHeaderPart r).countP isDocxTitle = 0 := by
  cases hb : r.basics <;> simp [docxHeaderPart, hb, docxBuildHeader_noTitle]

lemma isDocxTitleNamed_imp (t : String) :
    ∀ p, isDocxTitleNamed t p = true → isDocxTitle p = true := by
  intro p h
  exact (Bool.and_eq_true _ _ ▸ h).1

lemma docxSectBody_noTitleNamed (t : String) (r : Resume) (s : Sect) :
    (docxSectBody r s).countP (isDocxTitleNamed t) = 0 :=
  Nat.le_zero.mp (le_of_le_of_eq
    (List.countP_mono_left (fun b _ => isDocxTitleNamed_imp t b))
    (docxSectBody_noTitle r s))

lemma docxHeaderPart_noTitleNamed (t : String) (r : Resume) :
    (docxHeaderPart r).countP (isDocxTitleNamed t) = 0 :=
  Nat.le_zero.mp (le_of_le_of_eq
    (List.countP_mono_left (fun b _ => isDocxTitleNamed_imp t b))
    (docxHeaderPart_noTitle r))

lemma app_congr {α : Type} {a b c d : List α} (h1 : a = c) (h2 : b = d) :
    a ++ b = c ++ d := by rw [h1, h2]

lemma guard_congr {α β : Type} (l : List α) (x y : List β) (h : x = y) :
    optList (!l.isEmpty) x = optList (l.length != 0) y := by
  cases l <;> simp [optList, h]

/-- The PDF story decomposes as the header part followed by, for each section
in the source's order, nothing when its list is empty and otherwise one
`SectionTitle` heading followed by that section's entry blocks. -/
lemma pdf_structural (r : Resume) :
    pdfGenerate r = pdfHeaderPart r ++
      (sectOrder.map (fun s =>
        optList (sectLen r s != 0)
          (PBlock.para .sectionTitle (sectTitle s) :: pdfSectBody r s))).flatten := by
  simp only [sectOrder, List.map_cons, List.map_nil, List.flatten_cons,
    List.flatten_nil, List.append_nil]
  unfold pdfGenerate
  simp only [List.append_assoc]
  exact app_congr rfl (app_congr (guard_congr _ _ _ rfl) (app_congr (guard_congr _ _ _ rfl)
    (app_congr (guard_congr _ _ _ rfl) (app_congr (guard_congr _ _ _ rfl)
    (app_congr (guard_congr _ _ _ rfl) (app_congr (guard_congr _ _ _ rfl)
    (app_congr (guard_congr _ _ _ rfl) (app_congr (guard_congr _ _ _ rfl)
    (app_congr (guard_congr _ _ _ rfl) (app_congr (guard_congr _ _ _ rfl)
    (guard_congr _ _ _ rfl)))))))))))

/-- The DOCX body decomposes the same way. -/
lemma docx_structural (r : Resume) :
    docxGenerate r = docxHeaderPart r ++
      (sectOrder.map (fun s =>
        optList (sectLen r s != 0)
          (addSectionTitle (sectTitle s) :: docxSectBody r s))).flatten := by
  simp only [sectOrder, List.map_cons, List.map_nil, List.flatten_cons,
    List.flatten_nil, List.append_nil]
  unfold docxGenerate
  simp only [List.append_assoc]
  exact app_congr rfl (app_congr (guard_congr _ _ _ rfl) (app_congr (guard_congr _ _ _ rfl)
    (app_congr (guard_congr _ _ _ rfl) (app_congr (guard_congr _ _ _ rfl)
    (app_congr (guard_congr _ _ _ rfl) (app_congr (guard_congr _ _ _ rfl)
    (app_congr (guard_congr _ _ _ rfl) (app_congr (guard_congr _ _ _ rfl)
    (app_congr (guard_congr _ _ _ rfl) (app_congr (guard_congr _ _ _ rfl)
    (guard_congr _ _ _ rfl)))))))))))

/-- The PDF story contains the heading of section `s` exactly once when the
section's list is non-empty and not at all when it is empty. -/
lemma pdf_titleCount (r : Resume) (s : Sect) :
    (pdfGenerate r).countP (isPdfTitleNamed (sectTitle s)) =
      if sectLen r s = 0 then 0 else 1 := by
  rw [pdf_structural, List.countP_append, pdfHeaderPart_noTitleNamed]
  cases s <;>
    simp +decide [sectOrder, List.countP_append, List.countP_cons, sectTitle,
      pdfSectBody_noTitleNamed, isPdfTitleNamed, bne_iff_ne, ne_eq, ite_not]

/-- The DOCX body contains the heading of section `s` exactly once when the
section's list is non-empty and not at all when it is empty. -/
lemma docx_titleCount (r : Resume) (s : Sect) :
    (docxGenerate r).countP (isDocxTitleNamed (sectTitle s)) =
      if sectLen r s = 0 then 0 else 1 := by
  rw [docx_structural, List.countP_append, docxHeaderPart_noTitleNamed]
  cases s <;>
    simp +decide [sectOrder, List.countP_append, List.countP_cons, sectTitle,
      docxSectBody_noTitleNamed, isDocxTitleNamed, addSectionTitle, addParagraph,
      bne_iff_ne, ne_eq, ite_not]

@[simp]
lemma mem_optBlock {α : Type} (x b : α) (c : Bool) :
    x ∈ optBlock c b ↔ c = true ∧ x = b := by
  cases c <;> simp [optBlock]

/-! ## Claim theorems -/

/-- C1: For every `Resume` and each list-backed section, if the section's
list is empty the generated output contains no heading and no content for
that section, and if it is non-empty the output contains exactly one section
heading followed by the entries' blocks in input order, in both renderers:
the story/body decomposes as the header part plus, per section in the fixed
order, nothing when empty and otherwise the heading followed by that
section's entry blocks (a map over the entry list, preserving order); the
entry blocks and the header contain no heading; and the section's heading
occurs exactly once when the list is non-empty and zero times when empty. -/
theorem c1_list_sections_render_once_in_order (r : Resume) (s : Sect) :
    pdfGenerate r = pdfHeaderPart r ++
      (sectOrder.map (fun t =>
        optList (sectLen r t != 0)
          (PBlock.para .sectionTitle (sectTitle t) :: pdfSectBody r t))).flatten
  ∧ docxGenerate r = docxHeaderPart r ++
      (sectOrder.map (fun t =>
        optList (sectLen r t != 0)
          (addSectionTitle (sectTitle t) :: docxSectBody r t))).flatten
  ∧ (pdfSectBody r s).countP isPdfTitle = 0
  ∧ (docxSectBody r s).countP isDocxTitle = 0
  ∧ (pdfHeaderPart r).countP isPdfTitle = 0
  ∧ (docxHeaderPart r).countP isDocxTitle = 0
  ∧ (pdfGenerate r).countP (isPdfTitleNamed (sectTitle s)) =
      (if sectLen r s = 0 then 0 else 1)
  ∧ (docxGenerate r).countP (isDocxTitleNamed (sectTitle s)) =
      (if sectLen r s = 0 then 0 else 1) :=
  ⟨pdf_structural r, docx_structural r, pdfSectBody_noTitle r s,
   docxSectBody_noTitle r s, pdfHeaderPart_noTitle r, docxHeaderPart_noTitle r,
   pdf_titleCount r s, docx_titleCount r s⟩

/-- C2 (counterexample): `"foo-3"` is not of shape `YYYY-MM` or `YYYY-MM-DD`,
so the claim requires it back unchanged, but the formatter returns
`"Mar foo"`. -/
theorem c2_counterexample :
    format_date "foo-3" = "Mar foo" ∧ format_date "foo-3" ≠ "foo-3" := by
  constructor
  · decide
  · decide

/-- C2 (amended): the formatter never fails and is characterized by: split
the input on dashes; if there are at least two segments and the second
parses as a Python integer `m` with `1 ≤ m ≤ 12`, the result is the
three-letter English month abbreviation followed by a space and the first
segment — whatever the first segment's shape and however many segments
follow; every other input comes back unchanged. -/
theorem c2_format_date_characterization (s : String) :
    format_date s =
      match pySplitDash s with
      | year :: month :: _ =>
        (match pyInt month with
         | some m =>
           if 1 ≤ m ∧ m ≤ 12 then (months.getD (m - 1).toNat "") ++ " " ++ year
           else s
         | none => s)
      | _ => s := by
  by_cases hs : s = ""
  · subst hs; decide
  · unfold format_date
    rw [if_neg (by simpa [String.isEmpty_iff] using hs)]
    cases hsp : pySplitDash s with
    | nil => rfl
    | cons y rest =>
      cases rest with
      | nil => rfl
      | cons mo rest2 =>
        dsimp only
        cases hpi : pyInt mo with
        | none => rfl
        | some m =>
          dsimp only
          by_cases hm : 1 ≤ m ∧ m ≤ 12
          · rw [if_pos hm, if_pos (by omega : (0:Int) ≤ m - 1 ∧ m - 1 < 12)]
          · rw [if_neg hm, if_neg (by omega : ¬((0:Int) ≤ m - 1 ∧ m - 1 < 12))]

/-- C8 (counterexample): with `start` present as the empty string and `end`
absent, only `start` is present, so the claim requires
`"<formatDate(start)> - Present"`; the code returns `""` because it tests
Python truthiness, under which an empty string counts as absent. -/
theorem c8_counterexample :
    format_date_range (some "") none = ""
  ∧ format_date_range (some "") none ≠ format_date "" ++ " - Present" := by
  constructor
  · decide
  · decide

/-- C8 (amended): with "absent" meaning `None` or the empty string (Python
truthiness), `format_date_range` returns `""` when both are absent,
`"<formatDate(start)> - Present"` when only `start` is non-empty,
`"Until <formatDate(end)>"` when only `end` is non-empty, and
`"<formatDate(start)> - <formatDate(end)>"` when both are non-empty. -/
theorem c8_format_date_range_cases (start stop : Option String) :
    format_date_range start stop =
      if pystr start then
        (if pystr stop then
          format_date (start.getD "") ++ " - " ++ format_date (stop.getD "")
         else format_date (start.getD "") ++ " - Present")
      else
        (if pystr stop then "Until " ++ format_date (stop.getD "") else "") := by
  unfold format_date_range
  cases hs : pystr start <;> cases he : pystr stop <;> simp [hs, he]

/-- C3 (counterexample): no URL is ever derived from a network name. A
GitHub/alice profile renders (in both headers) as the plain text
`"GitHub: alice"`, not as the table-derived `"https://github.com/alice"`
required by the claim; different casings of the network yield different
rendered text rather than the same URL; and an explicit URL is ignored —
not preferred — whenever network and username are both present. -/
theorem c3_counterexample :
    profilePart { network := some "GitHub", username := some "alice" } =
      some "GitHub: alice"
  ∧ spec_resolveProfileUrl (some "GitHub") (some "alice") none =
      some "https://github.com/alice"
  ∧ profilePart { network := some "GitHub", username := some "alice" } ≠
      spec_resolveProfileUrl (some "GitHub") (some "alice") none
  ∧ profilePart { network := some "GITHUB", username := some "alice" } ≠
      profilePart { network := some "github", username := some "alice" }
  ∧ profilePart { network := some "GitHub", username := some "alice",
                  url := some "https://example.com/alice" } = some "GitHub: alice"
  ∧ pdfBuildHeader { profiles := [{ network := some "GitHub",
                                    username := some "alice" }] } =
      [.para .contact "GitHub: alice", .divider] := by
  refine ⟨by decide, by decide, by decide, by decide, by decide, by decide⟩

/-- C3 (amended): the renderers contain no profile URL resolver. Each
profile renders, identically in both headers, as the text
`"{network}: {username}"` when both are non-empty (casing preserved), else
as its explicit URL when that is non-empty, else it is omitted; no URL is
ever derived from the network name. -/
theorem c3_profiles_render_as_text (n u xu : String)
    (hn : n.isEmpty = false) (hu : u.isEmpty = false) :
    profilePart { network := some n, username := some u, url := none } =
      some (n ++ ": " ++ u)
  ∧ profilePart { network := some n, username := some u, url := some xu } =
      some (n ++ ": " ++ u)
  ∧ profilePart { network := some n, username := none, url := some xu } =
      (if xu.isEmpty then none else some xu)
  ∧ profilePart { network := none, username := some u, url := none } = none := by
  refine ⟨?_, ?_, ?_, ?_⟩ <;>
    · simp [profilePart, pystr, hn, hu]
      try cases hx : xu.isEmpty <;> simp [hx]

/-- C3 (witness for the amended theorem). -/
theorem c3_profiles_render_as_text_witness :
    profilePart { network := some "GitHub", username := some "alice",
                  url := none } = some "GitHub: alice"
  ∧ profilePart { network := some "GitHub", username := some "alice",
                  url := some "https://x.example" } = some "GitHub: alice"
  ∧ profilePart { network := some "GitHub", username := none,
                  url := some "https://x.example" } =
      (if ("https://x.example" : String).isEmpty then none
       else some "https://x.example")
  ∧ profilePart { network := none, username := some "alice", url := none } =
      none :=
  c3_profiles_render_as_text "GitHub" "alice" "https://x.example"
    (by decide) (by decide)

/-- C4 (counterexample): for an education entry with a non-empty courses
list, the DOCX renderer emits no `"Courses: ..."` line at all (no run of any
emitted paragraph carries that text), although the claim requires one; the
PDF renderer does emit it. -/
theorem c4_counterexample :
    (docxBuildEducationSection
        [{ institution := some "University", courses := ["Machine Learning"] }]).all
      (fun p => p.runs.all (fun rn => rn.text ≠ "Courses: Machine Learning")) = true
  ∧ PBlock.para .body "Courses: Machine Learning" ∈
      pdfBuildEducationSection
        [{ institution := some "University", courses := ["Machine Learning"] }] := by
  constructor
  · decide
  · decide

/-- C4 (amended): only the PDF renderer emits the courses line — a body
paragraph `"Courses: " ++` the comma-joined list, present in the entry's
blocks exactly when the courses list is non-empty — while the DOCX education
entry is completely insensitive to the `courses` field. -/
theorem c4_courses_pdf_only (e : Education) :
    (PBlock.para .body ("Courses: " ++ String.intercalate ", " e.courses) ∈
        pdfEducationEntry e ↔ e.courses ≠ [])
  ∧ ∀ cs : List String, docxEducationEntry { e with courses := cs } =
      docxEducationEntry e := by
  constructor
  · constructor
    · intro h hnil
      simp [pdfEducationEntry, List.mem_append, hnil] at h
    · intro h
      have hne : (!e.courses.isEmpty) = true := by
        cases hc : e.courses with
        | nil => exact absurd hc h
        | cons a t => simp
      simp [pdfEducationEntry, List.mem_append, hne]
  · intro cs; rfl

/-- C5 (counterexample): a skill with no name still produces a line in the
PDF output — an empty body paragraph is appended for the entry — whereas
the claim says no line at all is emitted; the DOCX renderer does omit it. -/
theorem c5_counterexample :
    pdfBuildSkillsSection [{}] =
      [.para .sectionTitle "SKILLS", .para .body "", .spacer 1 6]
  ∧ pdfBuildSkillsSection [{}] ≠ [.para .sectionTitle "SKILLS", .spacer 1 6]
  ∧ docxBuildSkillsSection [{}] = [addSectionTitle "SKILLS"] := by
  refine ⟨by decide, by decide, by decide⟩

/-- C5 (amended): per skill, the rendered line is the bold name, then
`" ({level})"` exactly when the level is non-empty, then `": "` and the
comma-joined keywords exactly when the keywords list is non-empty, in both
formats; when the name is absent or empty, the DOCX renderer emits no line
for the entry but the PDF renderer emits one empty body paragraph, so the
PDF skills section always holds one paragraph per skill plus heading and
spacer, while the DOCX section holds one paragraph per truthy-named skill
plus heading. -/
theorem c5_skill_lines (l : List Skill) :
    pdfBuildSkillsSection l = .para .sectionTitle "SKILLS" ::
      l.map (fun sk => .para .body (if pystr sk.name then
        "<b>" ++ sk.name.getD "" ++ "</b>" ++
        (if pystr sk.level then " (" ++ sk.level.getD "" ++ ")" else "") ++
        (if !sk.keywords.isEmpty then
          ": " ++ String.intercalate ", " sk.keywords else "")
      else "")) ++ [.spacer 1 6]
  ∧ docxBuildSkillsSection l = addSectionTitle "SKILLS" ::
      (l.map (fun sk => optBlock (pystr sk.name)
        { align := .left, spaceAfter := 4, spaceBefore := 0, indent := 0,
          runs :=
            ⟨sk.name.getD "", 10, true, false, .primary⟩ ::
            optBlock (pystr sk.level)
              ⟨" (" ++ sk.level.getD "" ++ ")", 10, false, false, .secondary⟩ ++
            optBlock (!sk.keywords.isEmpty)
              ⟨": " ++ String.intercalate ", " sk.keywords, 10, false, false,
               .primary⟩ })).flatten
  ∧ (pdfBuildSkillsSection l).length = l.length + 2
  ∧ (docxBuildSkillsSection l).length =
      (l.countP (fun sk => pystr sk.name)) + 1 := by
  refine ⟨rfl, rfl, ?_, ?_⟩
  · simp [pdfBuildSkillsSection]
  · simp only [docxBuildSkillsSection, List.length_cons]
    congr 1
    induction l with
    | nil => simp
    | cons sk l ih =>
      simp only [List.map_cons, List.flatten_cons, List.length_append, ih,
        List.countP_cons, docxSkillEntry, optBlock]
      cases pystr sk.name <;> simp [Nat.add_comm]

/-- C6: the claim (and the spec's §4.5 requirement, echoed by the test
docstring "Ampersands should be properly escaped in PDF") is that untrusted
free text is escaped before composer-inserted markup is added. The PDF
composer performs no escaping: a skill name containing reserved characters
is interpolated raw between the composer's `<b>`/`</b>` tags, and a summary
containing reserved characters is passed raw into the markup-interpreting
paragraph — evaluating the code at the failing input shows the unescaped
text, not the escaped text the claim requires. -/
theorem c6_no_escaping_before_markup :
    pdfSkillText { name := some "C & D <i>" } = "<b>C & D <i></b>"
  ∧ spec_escape "C & D <i>" = "C &amp; D &lt;i&gt;"
  ∧ pdfSkillText { name := some "C & D <i>" } ≠
      "<b>" ++ spec_escape "C & D <i>" ++ "</b>"
  ∧ pdfBuildHeader { summary := some "<tags> & \"quotes\"" } =
      [.spacer 1 8, .para .body "<tags> & \"quotes\"", .divider]
  ∧ PBlock.para .body "<tags> & \"quotes\"" ≠
      PBlock.para .body (spec_escape "<tags> & \"quotes\"") := by
  refine ⟨by decide, by decide, by decide, by decide, by decide⟩

/-- C7: a `Resume` with no basics and all section lists empty composes to an
empty story/body in both renderers, hence contains no section headings; the
(spec-modelled) serializers still produce a non-empty page-description file
beginning with `%PDF` and a word-processor package containing a
`word/document.xml` entry. -/
theorem c7_empty_resume_renders :
    pdfGenerate {} = []
  ∧ docxGenerate {} = []
  ∧ (pdfGenerate {}).countP isPdfTitle = 0
  ∧ (docxGenerate {}).countP isDocxTitle = 0
  ∧ (pdfSerialize (pdfGenerate {})).take 4 = "%PDF".toList
  ∧ pdfSerialize (pdfGenerate {}) ≠ []
  ∧ ((docxSave (docxGenerate {})).map ZipEntry.name).contains
      "word/document.xml" = true
  ∧ docxSave (docxGenerate {}) ≠ [] := by
  refine ⟨by decide, by decide, by decide, by decide, by decide, by decide,
    by decide, by decide⟩

/-- C9 (counterexample): with basics present but every field absent and the
profiles list empty, the PDF header still emits its horizontal divider
(`_build_header` appends it unconditionally), contradicting the claim that
nothing — in particular no divider — is emitted in either format. -/
theorem c9_counterexample :
    PBlock.divider ∈ pdfGenerate { basics := some {} } := by
  decide

/-- C9 (amended): for basics present with every field absent and no
profiles, the DOCX renderer emits nothing, while the PDF renderer emits no
text blocks but exactly one horizontal divider. -/
theorem c9_empty_basics_header :
    pdfGenerate { basics := some {} } = [PBlock.divider]
  ∧ docxGenerate { basics := some {} } = [] := by
  constructor
  · decide
  · decide

/-- C10 (counterexample): calling `generate` twice on the same
`DOCXGenerator` instance with the identical resume does not produce
identical saved content: the document held by the instance accumulates the
composed paragraphs, so the second call saves the body twice. -/
theorem c10_counterexample :
    (docxGenStep (docxGenStep [] { skills := [{ name := some "Python" }] }).1
        { skills := [{ name := some "Python" }] }).2
      ≠ (docxGenStep [] { skills := [{ name := some "Python" }] }).2 := by
  decide

/-- C10 (amended): the composed output is a deterministic pure function of
the resume for each single call — a fresh generator (empty document state)
always saves exactly `docxGenerate r`, and the PDF story is composed afresh
by `pdfGenerate` with no carried state — but the DOCX document state is
shared across `generate` calls on one instance: a second call on the same
instance saves `docxGenerate r ++ docxGenerate r`, which differs from the
first saved content whenever the composed body is non-empty. -/
theorem c10_generate_state (r : Resume) :
    (docxGenStep [] r).2 = docxGenerate r
  ∧ (docxGenStep (docxGenStep [] r).1 r).2 = docxGenerate r ++ docxGenerate r
  ∧ (docxGenerate r ≠ [] →
      (docxGenStep (docxGenStep [] r).1 r).2 ≠ (docxGenStep [] r).2) := by
  refine ⟨by simp [docxGenStep], by simp [docxGenStep], ?_⟩
  intro hne hcontra
  simp only [docxGenStep, List.nil_append] at hcontra
  have hl := congrArg List.length hcontra
  simp only [List.length_append] at hl
  have : (docxGenerate r).length = 0 := by omega
  exact hne (List.length_eq_zero.mp this)

/-- C10 (witness for the amended theorem). -/
theorem c10_generate_state_witness :
    docxGenerate { skills := [{ name := some "Python" }] } ≠ []
  ∧ (docxGenStep (docxGenStep [] { skills := [{ name := some "Python" }] }).1
        { skills := [{ name := some "Python" }] }).2
      ≠ (docxGenStep [] { skills := [{ name := some "Python" }] }).2 :=
  ⟨by decide,
   (c10_generate_state { skills := [{ name := some "Python" }] }).2.2 (by decide)⟩

end ResumeForge
